import Mathlib

/-
  Verification of the devflow note-capture application's classification and
  search pipelines.

  Shallow embedding conventions:
  * JS strings are modelled as `Str := List Char` (ASCII-faithful), so that
    every string operation is structurally recursive and kernel-reducible.
    `str` turns a Lean string literal into this representation.
  * JS numbers that carry confidences/delays are modelled as `ℚ`.
  * `undefined`/optional JS fields are modelled as `Option`; JS falsiness on
    strings ("" is falsy) and numbers (0 is falsy) is spelled out at each
    use site, following the source.
  * The external AI service ("oracle") is modelled as a function from the
    attempt number to a response, so that each claim quantifies over every
    oracle behaviour.  `Math.random()` is modelled as a function from the
    attempt number to a rational in [0, 1).
  * Persistence (`createEntry`) is modelled by a success/failure bit per
    store call (`ok : ℕ → Bool`), calls numbered in program order.
-/

set_option maxRecDepth 100000

/-- JS strings, modelled as lists of characters. -/
abbrev Str : Type := List Char

/-- Embed a Lean string literal as a `Str`. -/
def str (s : String) : Str := s.data

/-- JS `String.prototype.toLowerCase` (ASCII). -/
def toLowerStr (s : Str) : Str := s.map Char.toLower

/-- JS `String.prototype.trim`. -/
def trimStr (s : Str) : Str :=
  ((s.dropWhile Char.isWhitespace).reverse.dropWhile Char.isWhitespace).reverse

/-- Split a string at every character satisfying `p`, keeping empty pieces
    (JS `split` on a single-character class). -/
def splitChars (p : Char → Bool) : Str → List Str
  | [] => [[]]
  | c :: cs =>
    let rest := splitChars p cs
    if p c then [] :: rest
    else
      match rest with
      | [] => [[c]]
      | r :: rs => (c :: r) :: rs

/-- JS `split(/\s+/)` up to empty pieces (the sources always filter those
    out by a length bound immediately afterwards). -/
def splitWS (s : Str) : List Str := splitChars Char.isWhitespace s

/-- JS `split('\n')`. -/
def splitLines (s : Str) : List Str := splitChars (fun c => c = '\n') s

/-- JS `String.prototype.includes`. -/
def containsStr : Str → Str → Bool
  | [], pat => pat.isEmpty
  | c :: cs, pat => pat.isPrefixOf (c :: cs) || containsStr cs pat

/-- JS `Array.prototype.join(' ')`. -/
def joinSp (parts : List Str) : Str := List.intercalate [' '] parts

/-- JS `replace(/_/g, ' ')`. -/
def replaceUnderscores (s : Str) : Str :=
  s.map (fun c => if c = '_' then ' ' else c)

/-! ## Data model (src/lib/types.ts) -/

/-- `DetectedLanguage` from types.ts. -/
inductive DetectedLanguage where
  | en | hi | mr | hinglish | mixed
deriving DecidableEq

/-- `Priority` from types.ts. -/
inductive Priority where
  | low | medium | high | urgent
deriving DecidableEq

/-- `CodeType` from types.ts; the TS union values 'function' and 'class' are
    Lean keywords and are rendered `fn` and `cls`. -/
inductive CodeType where
  | fn | cls | snippet | config | other
deriving DecidableEq

/-- `EntryCategory` from types.ts: the closed six-value enumeration. -/
inductive EntryCategory where
  | code_snippet | learning_note | idea | bug_fix | general | task
deriving DecidableEq

/-- The list of all six categories. -/
def allCategories : List EntryCategory :=
  [.code_snippet, .learning_note, .idea, .bug_fix, .general, .task]

/-- The string name of a category, as interpolated by the source. -/
def categoryStr : EntryCategory → Str
  | .code_snippet => str "code_snippet"
  | .learning_note => str "learning_note"
  | .idea => str "idea"
  | .bug_fix => str "bug_fix"
  | .general => str "general"
  | .task => str "task"

/-- `SlangTerm` from types.ts. -/
structure SlangTerm where
  original : Str
  meaning : Str
  confidence : ℚ
deriving DecidableEq

/-- `AutoTagEntryOutput`, the oracle's structured output schema
    (src/ai/flows/auto-tagging-entries.ts).  Fields that are optional in the
    zod schema are `Option`; `translatedContent`, `category`, `tags` and
    `detectedLanguage` are required. -/
structure AutoTagEntryOutput where
  detectedLanguage : DetectedLanguage
  translatedContent : Str
  category : EntryCategory
  tags : List Str
  dueDate : Option Str := none
  priority : Option Priority := none
  actionItems : Option (List Str) := none
  language : Option Str := none
  codeType : Option CodeType := none
  containsSlang : Option Bool := none
  slangTerms : Option (List SlangTerm) := none
  confidence : Option ℚ := none
  reasoning : Option Str := none
  isCompleted : Option Bool := none
deriving DecidableEq

/-! ## Single-entry classifier helpers (auto-tagging-entries.ts) -/

/-- `extractBasicTags` from auto-tagging-entries.ts: lowercase, split on
    whitespace, keep words longer than 3 characters, take the first 5;
    if none qualify, the single tag "general". -/
def extractBasicTags (input : Str) : List Str :=
  let keywords := (((splitWS (toLowerStr input)).filter
    (fun w => 3 < w.length)).take 5)
  if 0 < keywords.length then keywords else [str "general"]

/-- `getFallbackResult` from auto-tagging-entries.ts: the rule-based
    fallback record produced when the oracle is unavailable. -/
def getFallbackResult (input : Str) : AutoTagEntryOutput :=
  let lowerInput := toLowerStr input
  let pick : EntryCategory × ℚ :=
    if containsStr lowerInput (str "function") || containsStr lowerInput (str "const")
        || containsStr lowerInput (str "import") then
      (.code_snippet, (6:ℚ)/10)
    else if containsStr lowerInput (str "app") || containsStr lowerInput (str "build")
        || containsStr lowerInput (str "develop") then
      (.idea, (5:ℚ)/10)
    else if containsStr lowerInput (str "learn") || containsStr lowerInput (str "til")
        || containsStr lowerInput (str "discovered") then
      (.learning_note, (5:ℚ)/10)
    else if containsStr lowerInput (str "bug") || containsStr lowerInput (str "fix")
        || containsStr lowerInput (str "error") then
      (.bug_fix, (5:ℚ)/10)
    else if containsStr lowerInput (str "task") || containsStr lowerInput (str "todo")
        || containsStr lowerInput (str "reminder") then
      (.task, (5:ℚ)/10)
    else
      (.general, (4:ℚ)/10)
  { detectedLanguage := .en
    translatedContent := input
    category := pick.1
    tags := extractBasicTags input
    containsSlang := some false
    confidence := some pick.2
    reasoning := some (str "AI service unavailable - used rule-based fallback categorization with basic heuristics") }

/-- `validateAndEnhanceOutput` from auto-tagging-entries.ts: post-validation
    and repair of the oracle's output.  JS falsiness is made explicit:
    `!output.confidence` is true for a missing confidence and for 0;
    `!output.reasoning` is true for a missing and for an empty reasoning. -/
def validateAndEnhanceOutput (output : AutoTagEntryOutput) (originalInput : Str) :
    AutoTagEntryOutput :=
  let conf : ℚ :=
    match output.confidence with
    | none => (7:ℚ)/10
    | some c => if c = 0 ∨ c < 0 ∨ 1 < c then (7:ℚ)/10 else c
  let tags := if output.tags = [] then extractBasicTags originalInput else output.tags
  let translated :=
    if trimStr output.translatedContent = [] then originalInput
    else output.translatedContent
  let reasoning :=
    match output.reasoning with
    | none => str "Categorized as " ++ categoryStr output.category ++ str " based on content analysis"
    | some r =>
      if r = [] then str "Categorized as " ++ categoryStr output.category ++ str " based on content analysis"
      else r
  { output with
      confidence := some conf
      tags := tags
      translatedContent := translated
      reasoning := some reasoning }

/-! ## Oracle model and the single-entry retry flow (auto-tagging-entries.ts) -/

/-- A JS error as inspected by the retry loops: an optional HTTP-like status
    and a message string. -/
structure OracleError where
  status : Option ℕ
  message : Str
deriving DecidableEq

/-- One oracle response of the single-entry flow: `ai.generate` either
    returns (with `result.output` possibly null, modelled as `Option`) or
    throws an error. -/
inductive OracleResponse where
  | success (out : Option AutoTagEntryOutput)
  | failure (e : OracleError)

/-- The retryability test of `autoTagEntryFlow` (auto-tagging-entries.ts,
    `isRateLimitError` / `isRetryableError`). -/
def isRetryableSingle (e : OracleError) : Bool :=
  (e.status == some 503)
    || containsStr e.message (str "503")
    || containsStr e.message (str "overloaded")
    || containsStr e.message (str "quota")
    || containsStr e.message (str "RESOURCE_EXHAUSTED")
    || containsStr e.message (str "timeout")
    || containsStr e.message (str "DEADLINE_EXCEEDED")

/-- The retryability test of `bulkAutoTagFlow` (bulk-auto-tagging.ts,
    `isRetryableError`). -/
def isRetryableBulk (e : OracleError) : Bool :=
  (e.status == some 503)
    || containsStr e.message (str "503")
    || containsStr e.message (str "overloaded")
    || containsStr e.message (str "quota")
    || containsStr e.message (str "resource exhausted")
    || containsStr e.message (str "timeout")

/-- A run of the single-entry flow: the returned record, how many oracle
    attempts were made, and the backoff delays (in ms) inserted before each
    retry, in order. -/
structure FlowRun where
  result : AutoTagEntryOutput
  attempts : ℕ
  delays : List ℚ
deriving DecidableEq

/-- The loop body of `autoTagEntryFlow`, one constructor application per
    loop iteration; `fuel` is `maxRetries - attempt`.  On a successful
    generate call the output (or, when null, the fallback) is repaired and
    returned; on a retryable error with attempts remaining the loop sleeps
    `min(1000 * 2^attempt, 10000) + Math.random() * 500` ms and continues;
    otherwise the fallback is returned. -/
def autoTagGo (input : Str) (oracle : ℕ → OracleResponse) (rand : ℕ → ℚ) :
    ℕ → ℕ → FlowRun
  | _, 0 => ⟨getFallbackResult input, 0, []⟩
  | attempt, fuel + 1 =>
    match oracle attempt with
    | .success out =>
      ⟨validateAndEnhanceOutput (out.getD (getFallbackResult input)) input, 1, []⟩
    | .failure e =>
      if isRetryableSingle e && decide (attempt < 2) then
        let d := min ((1000:ℚ) * 2 ^ attempt) 10000 + rand attempt * 500
        let rest := autoTagGo input oracle rand (attempt + 1) fuel
        ⟨rest.result, rest.attempts + 1, d :: rest.delays⟩
      else ⟨getFallbackResult input, 1, []⟩

/-- `autoTagEntryFlow` (the single-entry classifier, `classifyOne`):
    the retry loop entered at attempt 0 with `maxRetries = 3`. -/
def autoTagEntryFlow (input : Str) (oracle : ℕ → OracleResponse) (rand : ℕ → ℚ) :
    FlowRun :=
  autoTagGo input oracle rand 0 3

/-! ## Bulk flow (bulk-auto-tagging.ts) -/

/-- One oracle response of the bulk flow: `ai.generate` either returns
    (output possibly null) or throws. -/
inductive BulkOracleResponse where
  | success (out : Option (List AutoTagEntryOutput))
  | failure (e : OracleError)

/-- A run of the bulk flow: `outcome = some results` when the flow returned,
    `none` when it threw (to be handled by `bulkAddEntries`). -/
structure BulkFlowRun where
  outcome : Option (List AutoTagEntryOutput)
  attempts : ℕ
  delays : List ℚ
deriving DecidableEq

/-- The loop body of `bulkAutoTagFlow`.  A null output raises
    'No output generated' inside the try block; that message matches no
    retryable token, so the error is rethrown and the flow ends. -/
def bulkAutoTagGo (oracle : ℕ → BulkOracleResponse) (rand : ℕ → ℚ) :
    ℕ → ℕ → BulkFlowRun
  | _, 0 => ⟨none, 0, []⟩
  | attempt, fuel + 1 =>
    match oracle attempt with
    | .success (some out) => ⟨some out, 1, []⟩
    | .success none => ⟨none, 1, []⟩
    | .failure e =>
      if isRetryableBulk e && decide (attempt < 2) then
        let d := min ((1000:ℚ) * 2 ^ attempt) 10000 + rand attempt * 500
        let rest := bulkAutoTagGo oracle rand (attempt + 1) fuel
        ⟨rest.outcome, rest.attempts + 1, d :: rest.delays⟩
      else ⟨none, 1, []⟩

/-- `bulkAutoTagFlow` (the bulk classifier flow): the retry loop entered at
    attempt 0 with `maxRetries = 3`. -/
def bulkAutoTagFlow (oracle : ℕ → BulkOracleResponse) (rand : ℕ → ℚ) :
    BulkFlowRun :=
  bulkAutoTagGo oracle rand 0 3

/-! ## Bulk ingestion (src/lib/actions.ts, bulkAddEntries) -/

/-- The persisted entry record (`Omit<Entry, 'id'>` in actions.ts), minus
    the two wall-clock timestamps. -/
structure EntryData where
  content : Str
  translatedContent : Option Str
  detectedLanguage : DetectedLanguage
  category : EntryCategory
  tags : List Str
  dueDate : Option Str := none
  priority : Option Priority := none
  actionItems : Option (List Str) := none
  language : Option Str := none
  codeType : Option CodeType := none
  containsSlang : Bool
  slangTerms : Option (List SlangTerm) := none
  confidence : ℚ
  reasoning : Option Str := none
  userId : Str
  isCompleted : Bool
deriving DecidableEq

/-- The per-result record built on the oracle-success path of
    `bulkAddEntries` (actions.ts lines 149-169).  JS
    `result.translatedContent || 'Empty Content'` falls back on the empty
    string; `??` falls back only on a missing value. -/
def resultToEntry (result : AutoTagEntryOutput) : EntryData :=
  { content := if result.translatedContent = [] then str "Empty Content"
               else result.translatedContent
    translatedContent := some result.translatedContent
    detectedLanguage := result.detectedLanguage
    category := result.category
    tags := result.tags
    dueDate := result.dueDate
    priority := result.priority
    actionItems := result.actionItems
    language := result.language
    codeType := result.codeType
    containsSlang := result.containsSlang.getD false
    slangTerms := result.slangTerms
    confidence := result.confidence.getD ((8:ℚ)/10)
    reasoning := result.reasoning
    userId := str "anonymous"
    isCompleted := result.isCompleted.getD false }

/-- The newline-split fallback records of `bulkAddEntries`
    (actions.ts lines 187-203). -/
def bulkFallbackRecords (raw : Str) : List EntryData :=
  (((splitLines raw).map trimStr).filter (fun e => 0 < e.length)).map
    (fun content =>
      { content := content
        translatedContent := some content
        detectedLanguage := .en
        category := .general
        tags := [str "bulk-import-failed"]
        containsSlang := false
        confidence := 0
        reasoning := some (str "Smart import failed, fallback to raw lines")
        userId := str "anonymous"
        isCompleted := false })

/-- Fire all `createEntry` calls for `records`, store calls numbered from
    `n`; returns the records actually persisted (in order) and whether every
    call succeeded (`Promise.all` rejects iff one failed, but every call
    still runs). -/
def runSaves : List EntryData → (ℕ → Bool) → ℕ → List EntryData × Bool
  | [], _, _ => ([], true)
  | r :: rs, ok, n =>
    let rest := runSaves rs ok (n + 1)
    (if ok n then r :: rest.1 else rest.1, ok n && rest.2)

/-- The outcome of `bulkAutoTagEntries` as seen by `bulkAddEntries`:
    either the results list, or a thrown error. -/
inductive BulkOutcome where
  | ok (results : List AutoTagEntryOutput)
  | err

/-- The fallback arm of `bulkAddEntries` (the catch block): persist one
    fallback record per non-empty trimmed line; return their number when
    every save succeeded, otherwise the whole call throws (`none`).
    `already` carries records persisted before the fallback was entered. -/
def bulkFallbackRun (raw : Str) (ok : ℕ → Bool) (start : ℕ)
    (already : List EntryData) : Option ℕ × List EntryData :=
  let recs := bulkFallbackRecords raw
  let s := runSaves recs ok start
  (if s.2 then some recs.length else none, already ++ s.1)

/-- `bulkAddEntries` (`classifyBulk`), as a function of the raw blob, the
    bulk-flow outcome, and the per-call persistence bit.  Returns the count
    the function returns (`none` = the call threw) and the records actually
    persisted, in store-call order. -/
def bulkAddEntries (raw : Str) (bulk : BulkOutcome) (ok : ℕ → Bool) :
    Option ℕ × List EntryData :=
  if trimStr raw = [] then (some 0, [])
  else
    match bulk with
    | .err => bulkFallbackRun raw ok 0 []
    | .ok results =>
      if results.length = 0 then (some 0, [])
      else if results.length = 1 ∧ 200 < raw.length then bulkFallbackRun raw ok 0 []
      else
        let recs := results.map resultToEntry
        let s := runSaves recs ok 0
        if s.2 then (some recs.length, s.1)
        else bulkFallbackRun raw ok recs.length s.1

/-! ## Local search (src/lib/search-utils.ts) -/

/-- The stored `Entry`, restricted to the fields read by the search and
    scoring code. -/
structure Entry where
  content : Str
  translatedContent : Option Str
  category : EntryCategory
  tags : List Str
  reasoning : Option Str
deriving DecidableEq

/-- `localSearch` from search-utils.ts: the pure, oracle-free AND-term
    substring filter. -/
def localSearch (query : Str) (entries : List Entry) : List Entry :=
  if trimStr query = [] then entries
  else
    let lowerQuery := toLowerStr query
    let terms := (splitWS lowerQuery).filter (fun t => 1 < t.length)
    entries.filter (fun entry =>
      let searchableContent := toLowerStr (joinSp
        ([entry.content, entry.translatedContent.getD [],
          replaceUnderscores (categoryStr entry.category)]
          ++ entry.tags ++ [entry.reasoning.getD []]))
      terms.all (fun term => containsStr searchableContent term))

/-! ## Relevance scorer (spec section 4.5) -/

/-- Modelled from the spec: the Relevance Scorer of the search pipeline
    (spec section 4.5) is not present under src/ — only the spec describes
    it.  Signals, each keyword evaluated independently and
    case-insensitively: +10 per keyword found in the original content, +8
    in the translated content, +6 in any tag, +4 in the category name; +5
    once if the entry's category is among the candidate categories; one
    recency bonus from the entry's age in days at scoring time (< 1 day →
    +3, < 7 → +2, < 30 → +1, otherwise +0). -/
def relevanceScore (e : Entry) (keywords : List Str)
    (cats : List EntryCategory) (ageDays : ℚ) : ℕ :=
  let keywordPoints := keywords.foldl
    (fun acc k =>
      let lk := toLowerStr k
      acc
        + (if containsStr (toLowerStr e.content) lk then 10 else 0)
        + (if containsStr (toLowerStr (e.translatedContent.getD [])) lk then 8 else 0)
        + (if e.tags.any (fun t => containsStr (toLowerStr t) lk) then 6 else 0)
        + (if containsStr (toLowerStr (categoryStr e.category)) lk then 4 else 0))
    0
  let categoryPoints := if e.category ∈ cats then 5 else 0
  let recencyPoints : ℕ :=
    if ageDays < 1 then 3 else if ageDays < 7 then 2
    else if ageDays < 30 then 1 else 0
  keywordPoints + categoryPoints + recencyPoints

/-! ## Spec-side definitions used to state the claims -/

/-- Modelled from the spec: an error is transient (retry-worthy) iff its
    signal indicates service overload (HTTP 503-equivalent), quota/resource
    exhaustion, or timeout/deadline-exceeded (spec sections 4.1 and 7).
    At the level of a status/message pair these signals are the 503 status
    or the standard tokens in the message. -/
def specTransientError (e : OracleError) : Bool :=
  (e.status == some 503)
    || containsStr e.message (str "503")
    || containsStr e.message (str "overloaded")
    || containsStr e.message (str "quota")
    || containsStr e.message (str "RESOURCE_EXHAUSTED")
    || containsStr e.message (str "resource exhausted")
    || containsStr e.message (str "timeout")
    || containsStr e.message (str "DEADLINE_EXCEEDED")

/-- Whether a response at attempt `k` is followed by another attempt under
    a given retryability test: only a thrown error that the test accepts,
    and only while attempts remain (`k + 1 < 3`). -/
def followedByRetry (retryable : OracleError → Bool) :
    OracleResponse → ℕ → Bool
  | .success _, _ => false
  | .failure e, k => retryable e && decide (k + 1 < 3)

/-- `followedByRetry` for the bulk flow's response type. -/
def bulkFollowedByRetry (retryable : OracleError → Bool) :
    BulkOracleResponse → ℕ → Bool
  | .success _, _ => false
  | .failure e, k => retryable e && decide (k + 1 < 3)

/-- The retry-policy contract for one single-entry flow run `r` against the
    oracle behaviour: at most 3 attempts; attempt `k+1` happens exactly when
    the retryability test accepts the error of attempt `k` and attempts
    remain; one delay per retry, equal to `min(1000 * 2^k, 10000)` plus a
    jitter in [0, 500). -/
def singleRetrySpec (oracle : ℕ → OracleResponse) (r : FlowRun) : Prop :=
  r.attempts ≤ 3 ∧
  r.attempts =
    (if followedByRetry isRetryableSingle (oracle 0) 0 then
       if followedByRetry isRetryableSingle (oracle 1) 1 then 3 else 2
     else 1) ∧
  r.delays.length = r.attempts - 1 ∧
  ∀ k (hk : k < r.delays.length), ∃ j, 0 ≤ j ∧ j < 500 ∧
    r.delays.get ⟨k, hk⟩ = min ((1000:ℚ) * 2 ^ k) 10000 + j

/-- The same retry-policy contract for a bulk flow run. -/
def bulkRetrySpec (oracle : ℕ → BulkOracleResponse) (r : BulkFlowRun) : Prop :=
  r.attempts ≤ 3 ∧
  r.attempts =
    (if bulkFollowedByRetry isRetryableBulk (oracle 0) 0 then
       if bulkFollowedByRetry isRetryableBulk (oracle 1) 1 then 3 else 2
     else 1) ∧
  r.delays.length = r.attempts - 1 ∧
  ∀ k (hk : k < r.delays.length), ∃ j, 0 ≤ j ∧ j < 500 ∧
    r.delays.get ⟨k, hk⟩ = min ((1000:ℚ) * 2 ^ k) 10000 + j

/-- A concrete well-formed oracle output, used by witnesses. -/
def sampleOutput : AutoTagEntryOutput :=
  { detectedLanguage := .en
    translatedContent := str "hi"
    category := .general
    tags := [str "note"]
    confidence := some 1 }

/-- A concrete entry, used by witnesses. -/
def sampleEntry : Entry :=
  { content := str "hello note"
    translatedContent := some (str "hello note")
    category := .general
    tags := [str "tagone"]
    reasoning := none }

/-! ## Helper lemmas -/

/-- Every category value is in the six-value enumeration. -/
theorem category_mem_allCategories (c : EntryCategory) : c ∈ allCategories := by
  cases c <;> simp [allCategories]

/-- When every store call succeeds, `runSaves` persists every record. -/
theorem runSaves_allOk (l : List EntryData) (ok : ℕ → Bool)
    (h : ∀ i, ok i = true) : ∀ n, runSaves l ok n = (l, true) := by
  induction l with
  | nil => intro n; rfl
  | cons r rs ih => intro n; simp [runSaves, h, ih]

/-- Jitter bound: `Math.random() * 500` lies in [0, 500). -/
theorem jitter_bounds (x : ℚ) (h0 : 0 ≤ x) (h1 : x < 1) :
    0 ≤ x * 500 ∧ x * 500 < 500 :=
  ⟨by positivity, by nlinarith⟩

/-! ## Claims -/

/-- C5: on the rule-based fallback path of the single-entry classifier the
    category is chosen by the first matching keyword family over the
    lowercased input, in the strict order code tokens → idea tokens →
    learning tokens → bug tokens → task tokens → general; the record has
    language English, translation equal to the raw input unchanged, slang
    flag false, and a fixed confidence in [0.4, 0.6] depending only on the
    matched family. -/
theorem claim5_fallback_rule_order (input : Str) :
    (getFallbackResult input).detectedLanguage = .en ∧
    (getFallbackResult input).translatedContent = input ∧
    (getFallbackResult input).containsSlang = some false ∧
    ((getFallbackResult input).category, (getFallbackResult input).confidence) =
      (if containsStr (toLowerStr input) (str "function")
          || containsStr (toLowerStr input) (str "const")
          || containsStr (toLowerStr input) (str "import") then
         (EntryCategory.code_snippet, some ((6:ℚ)/10))
       else if containsStr (toLowerStr input) (str "app")
          || containsStr (toLowerStr input) (str "build")
          || containsStr (toLowerStr input) (str "develop") then
         (EntryCategory.idea, some ((5:ℚ)/10))
       else if containsStr (toLowerStr input) (str "learn")
          || containsStr (toLowerStr input) (str "til")
          || containsStr (toLowerStr input) (str "discovered") then
         (EntryCategory.learning_note, some ((5:ℚ)/10))
       else if containsStr (toLowerStr input) (str "bug")
          || containsStr (toLowerStr input) (str "fix")
          || containsStr (toLowerStr input) (str "error") then
         (EntryCategory.bug_fix, some ((5:ℚ)/10))
       else if containsStr (toLowerStr input) (str "task")
          || containsStr (toLowerStr input) (str "todo")
          || containsStr (toLowerStr input) (str "reminder") then
         (EntryCategory.task, some ((5:ℚ)/10))
       else (EntryCategory.general, some ((4:ℚ)/10))) ∧
    (∃ c, (getFallbackResult input).confidence = some c ∧
      (4:ℚ)/10 ≤ c ∧ c ≤ (6:ℚ)/10) := by
  refine ⟨rfl, rfl, rfl, ?_, ?_⟩
  · unfold getFallbackResult
    dsimp only
    split_ifs <;> rfl
  · unfold getFallbackResult
    dsimp only
    split_ifs <;> exact ⟨_, rfl, by norm_num, by norm_num⟩

/-- C6 counterexample: the claim fails on the code in two places.  First,
    an oracle confidence of 0 is inside [0, 1] and present, yet the repair
    step replaces it by 0.7 (JS falsiness of 0), so "0.7 exactly when
    missing or outside [0,1]" and "in-range preserved unchanged" are both
    false at confidence 0.  Second, the fallback tags derived from the raw
    text "Code Code tiny" are the lowercased tokens with duplicates kept,
    not distinct tokens of the raw text. -/
theorem claim6_counterexample :
    ((validateAndEnhanceOutput
        { detectedLanguage := .en, translatedContent := str "x",
          category := .general, tags := [str "t"], confidence := some 0 }
        (str "x")).confidence = some ((7:ℚ)/10) ∧
      (0:ℚ) ∈ Set.Icc (0:ℚ) 1) ∧
    (validateAndEnhanceOutput
        { detectedLanguage := .en, translatedContent := str "x",
          category := .general, tags := [], confidence := some ((9:ℚ)/10) }
        (str "Code Code tiny")).tags = [str "code", str "code", str "tiny"] := by
  refine ⟨⟨rfl, ?_⟩, by decide⟩
  constructor <;> norm_num

/-- C6 (amended): the post-validation step sets the confidence to 0.7
    exactly when the oracle's confidence was missing, zero, or outside
    [0,1], and preserves an in-range nonzero confidence; empty tags are
    replaced by the first 5 lowercased whitespace-delimited tokens of the
    raw text longer than 3 characters (duplicates kept, order preserved),
    or by the single tag "general" when no token qualifies; an empty or
    whitespace-only translation is replaced by the raw input; a missing or
    empty reasoning is replaced by a synthesized statement naming the
    chosen category. -/
theorem claim6_validate_repair (o : AutoTagEntryOutput) (inp : Str) :
    (validateAndEnhanceOutput o inp).confidence =
      some (match o.confidence with
            | none => (7:ℚ)/10
            | some c => if c = 0 ∨ c < 0 ∨ 1 < c then (7:ℚ)/10 else c) ∧
    (validateAndEnhanceOutput o inp).tags =
      (if o.tags = [] then
         (if ((splitWS (toLowerStr inp)).filter (fun w => 3 < w.length)).take 5 = []
          then [str "general"]
          else ((splitWS (toLowerStr inp)).filter (fun w => 3 < w.length)).take 5)
       else o.tags) ∧
    (validateAndEnhanceOutput o inp).translatedContent =
      (if trimStr o.translatedContent = [] then inp else o.translatedContent) ∧
    (validateAndEnhanceOutput o inp).reasoning =
      some (match o.reasoning with
            | none => str "Categorized as " ++ categoryStr o.category
                        ++ str " based on content analysis"
            | some r =>
              if r = [] then str "Categorized as " ++ categoryStr o.category
                               ++ str " based on content analysis"
              else r) := by
  refine ⟨rfl, ?_, rfl, rfl⟩
  unfold validateAndEnhanceOutput extractBasicTags
  dsimp only
  by_cases htags : o.tags = []
  · simp only [htags, if_true, if_pos rfl]
    rcases h5 : ((splitWS (toLowerStr inp)).filter (fun w => 3 < w.length)).take 5 with _ | _ <;>
      simp [h5]
  · simp [htags]

/-- C7: localSearch returns the entry list unchanged on an
    empty/whitespace-only query; otherwise it keeps exactly the entries for
    which every lowercased whitespace-separated query term of length > 1
    occurs as a substring of the (space-joined, lowercased) concatenation
    of content, translated content (or empty), category name with
    underscores replaced by spaces, all tags, and reasoning (or empty).
    It is a pure function: it calls no oracle and cannot fail. -/
theorem claim7_localSearch (q : Str) (es : List Entry) :
    localSearch q es =
      (if trimStr q = [] then es
       else
         es.filter (fun e =>
           ((splitWS (toLowerStr q)).filter (fun t => 1 < t.length)).all
             (fun term =>
               containsStr
                 (toLowerStr (joinSp ([e.content, e.translatedContent.getD [],
                   replaceUnderscores (categoryStr e.category)] ++ e.tags
                   ++ [e.reasoning.getD []])))
                 term))) := rfl

/-- C10: on the bulk oracle-success path, each persisted record's content
    is the oracle's translated content for that item, with the literal
    sentinel "Empty Content" substituted when that translation is empty;
    the raw segment text never appears (the record is a function of the
    oracle result alone). -/
theorem claim10_bulk_content_field (result : AutoTagEntryOutput) :
    (resultToEntry result).content =
      (if result.translatedContent = [] then str "Empty Content"
       else result.translatedContent) := rfl

/-- C3: when the bulk oracle call fails, `bulkAddEntries` splits the blob
    on newlines, trims each line, discards empty lines, and (with the store
    available) persists exactly one record per remaining line with category
    general, language English, translated content equal to the line, the
    single sentinel fallback tag, confidence 0, and completion false,
    returning the number of such lines.  The record computation itself is a
    total pure function of the blob. -/
theorem claim3_bulk_fallback (raw : Str) (h : trimStr raw ≠ []) :
    bulkAddEntries raw .err (fun _ => true) =
      (some ((((splitLines raw).map trimStr).filter (fun e => 0 < e.length)).length),
       (((splitLines raw).map trimStr).filter (fun e => 0 < e.length)).map
         (fun line =>
           { content := line
             translatedContent := some line
             detectedLanguage := .en
             category := .general
             tags := [str "bulk-import-failed"]
             containsSlang := false
             confidence := 0
             reasoning := some (str "Smart import failed, fallback to raw lines")
             userId := str "anonymous"
             isCompleted := false })) := by
  unfold bulkAddEntries bulkFallbackRun
  rw [if_neg h]
  simp [runSaves_allOk _ _ (fun _ => rfl), bulkFallbackRecords]

/-- C3 witness: the two-line blob "a\nb" under a failing bulk oracle. -/
theorem claim3_witness :
    trimStr (str "a\nb") ≠ [] ∧
    bulkAddEntries (str "a\nb") .err (fun _ => true) =
      (some ((((splitLines (str "a\nb")).map trimStr).filter
          (fun e => 0 < e.length)).length),
       (((splitLines (str "a\nb")).map trimStr).filter (fun e => 0 < e.length)).map
         (fun line =>
           { content := line
             translatedContent := some line
             detectedLanguage := .en
             category := .general
             tags := [str "bulk-import-failed"]
             containsSlang := false
             confidence := 0
             reasoning := some (str "Smart import failed, fallback to raw lines")
             userId := str "anonymous"
             isCompleted := false })) :=
  ⟨by decide, claim3_bulk_fallback (str "a\nb") (by decide)⟩

/-- C4: if the bulk oracle returns exactly one result while the input
    exceeds 200 characters, `bulkAddEntries` treats it as a segmentation
    failure: the call behaves exactly as if the oracle had failed, and
    (with the store available) the records persisted are the newline-split
    fallback records, never the degenerate single-item result. -/
theorem claim4_plausibility (raw : Str) (res : AutoTagEntryOutput)
    (ok : ℕ → Bool) (h1 : trimStr raw ≠ []) (h2 : 200 < raw.length) :
    bulkAddEntries raw (.ok [res]) ok = bulkAddEntries raw .err ok ∧
    (bulkAddEntries raw (.ok [res]) (fun _ => true)).2 = bulkFallbackRecords raw := by
  constructor
  · unfold bulkAddEntries
    rw [if_neg h1, if_neg h1]
    simp [h2]
  · unfold bulkAddEntries bulkFallbackRun
    rw [if_neg h1]
    simp [h2, runSaves_allOk _ _ (fun _ => rfl)]

/-- C4 witness: a 201-character single-line input for which the oracle
    returns one item. -/
theorem claim4_witness :
    trimStr (List.replicate 201 'a') ≠ [] ∧
    200 < (List.replicate 201 'a' : Str).length ∧
    bulkAddEntries (List.replicate 201 'a') (.ok [sampleOutput]) (fun _ => true) =
      bulkAddEntries (List.replicate 201 'a') .err (fun _ => true) :=
  ⟨by decide, by decide,
    (claim4_plausibility (List.replicate 201 'a') sampleOutput (fun _ => true)
      (by decide) (by decide)).1⟩

/-- The record invariant of C1: category in the closed enumeration,
    confidence present and in [0,1], translated content non-empty. -/
def classifierInvariant (r : AutoTagEntryOutput) : Prop :=
  r.category ∈ allCategories ∧
  (∃ c, r.confidence = some c ∧ 0 ≤ c ∧ c ≤ 1) ∧
  r.translatedContent ≠ []

/-- The rule-based fallback satisfies the record invariant. -/
theorem fallback_classifierInvariant (input : Str) (h : input ≠ []) :
    classifierInvariant (getFallbackResult input) := by
  refine ⟨category_mem_allCategories _, ?_, h⟩
  unfold getFallbackResult
  dsimp only
  split_ifs <;> exact ⟨_, rfl, by norm_num, by norm_num⟩

/-- The repair step preserves the record invariant for any oracle output,
    provided the raw input is non-empty. -/
theorem validate_classifierInvariant (o : AutoTagEntryOutput) (input : Str)
    (h : input ≠ []) :
    classifierInvariant (validateAndEnhanceOutput o input) := by
  refine ⟨category_mem_allCategories _, ?_, ?_⟩
  · unfold validateAndEnhanceOutput
    dsimp only
    cases hc : o.confidence with
    | none => exact ⟨_, rfl, by norm_num, by norm_num⟩
    | some c =>
      by_cases hb : c = 0 ∨ c < 0 ∨ 1 < c
      · refine ⟨(7:ℚ)/10, ?_, by norm_num, by norm_num⟩
        simp [hb]
      · have hb' := hb
        push_neg at hb'
        exact ⟨c, by simp [hb], hb'.2.1, hb'.2.2⟩
  · unfold validateAndEnhanceOutput
    dsimp only
    by_cases ht : trimStr o.translatedContent = []
    · rw [if_pos ht]; exact h
    · rw [if_neg ht]
      intro heq
      exact ht (by rw [heq]; rfl)

/-- Every iteration of the single-entry retry loop returns a record
    satisfying the invariant. -/
theorem autoTagGo_classifierInvariant (input : Str) (oracle : ℕ → OracleResponse)
    (rand : ℕ → ℚ) (h : input ≠ []) :
    ∀ fuel attempt, classifierInvariant (autoTagGo input oracle rand attempt fuel).result := by
  intro fuel
  induction fuel with
  | zero => intro attempt; exact fallback_classifierInvariant input h
  | succ n ih =>
    intro attempt
    unfold autoTagGo
    cases horacle : oracle attempt with
    | success out => exact validate_classifierInvariant _ _ h
    | failure e =>
      dsimp only
      split
      · exact ih (attempt + 1)
      · exact fallback_classifierInvariant input h

/-- C1: for every non-empty input and every oracle behaviour (success with
    arbitrary output, null output, or failure on every attempt), the record
    returned by the single-entry classifier has a category in the fixed
    six-value enumeration, a confidence in [0,1], and a non-empty
    translated content. -/
theorem claim1_classifyOne_invariants (input : Str) (h : input ≠ [])
    (oracle : ℕ → OracleResponse) (rand : ℕ → ℚ) :
    (autoTagEntryFlow input oracle rand).result.category ∈ allCategories ∧
    (∃ c, (autoTagEntryFlow input oracle rand).result.confidence = some c ∧
      0 ≤ c ∧ c ≤ 1) ∧
    (autoTagEntryFlow input oracle rand).result.translatedContent ≠ [] :=
  autoTagGo_classifierInvariant input oracle rand h 3 0

/-- C1 witness: the input "hello" against an oracle that fails on every
    attempt with a non-retryable error. -/
theorem claim1_witness :
    str "hello" ≠ [] ∧
    ((autoTagEntryFlow (str "hello")
        (fun _ => .failure ⟨none, str "boom"⟩) (fun _ => 0)).result.category
        ∈ allCategories ∧
     (∃ c, (autoTagEntryFlow (str "hello")
        (fun _ => .failure ⟨none, str "boom"⟩) (fun _ => 0)).result.confidence
        = some c ∧ 0 ≤ c ∧ c ≤ 1) ∧
     (autoTagEntryFlow (str "hello")
        (fun _ => .failure ⟨none, str "boom"⟩) (fun _ => 0)).result.translatedContent
        ≠ []) :=
  ⟨by decide,
   claim1_classifyOne_invariants (str "hello") (by decide)
     (fun _ => .failure ⟨none, str "boom"⟩) (fun _ => 0)⟩

/-- C9: the relevance score (spec-modelled, section 4.5) is non-negative,
    and equals 0 when no keyword matches any of the four text signals, the
    entry's category is not among the candidate categories, and the entry
    is at least 30 days old. -/
theorem claim9_score_nonneg_zero (e : Entry) (keywords : List Str)
    (cats : List EntryCategory) (ageDays : ℚ) :
    0 ≤ relevanceScore e keywords cats ageDays ∧
    ((∀ k ∈ keywords,
        containsStr (toLowerStr e.content) (toLowerStr k) = false ∧
        containsStr (toLowerStr (e.translatedContent.getD [])) (toLowerStr k) = false ∧
        e.tags.any (fun t => containsStr (toLowerStr t) (toLowerStr k)) = false ∧
        containsStr (toLowerStr (categoryStr e.category)) (toLowerStr k) = false) →
      e.category ∉ cats → 30 ≤ ageDays →
      relevanceScore e keywords cats ageDays = 0) := by
  constructor
  · exact Nat.zero_le _
  · intro hkw hcat hage
    unfold relevanceScore
    have hfold : ∀ (l : List Str),
        (∀ k ∈ l,
          containsStr (toLowerStr e.content) (toLowerStr k) = false ∧
          containsStr (toLowerStr (e.translatedContent.getD [])) (toLowerStr k) = false ∧
          e.tags.any (fun t => containsStr (toLowerStr t) (toLowerStr k)) = false ∧
          containsStr (toLowerStr (categoryStr e.category)) (toLowerStr k) = false) →
        ∀ acc : ℕ,
        List.foldl
          (fun acc k =>
            acc
              + (if containsStr (toLowerStr e.content) (toLowerStr k) then 10 else 0)
              + (if containsStr (toLowerStr (e.translatedContent.getD [])) (toLowerStr k) then 8 else 0)
              + (if e.tags.any (fun t => containsStr (toLowerStr t) (toLowerStr k)) then 6 else 0)
              + (if containsStr (toLowerStr (categoryStr e.category)) (toLowerStr k) then 4 else 0))
          acc l = acc := by
      intro l
      induction l with
      | nil => intro _ acc; rfl
      | cons k ks ih =>
        intro hl acc
        have hk := hl k (List.mem_cons_self k ks)
        simp only [List.foldl_cons, hk.1, hk.2.1, hk.2.2.1, hk.2.2.2,
          if_false, Nat.add_zero]
        exact ih (fun x hx => hl x (List.mem_cons_of_mem k hx)) acc
    rw [hfold keywords hkw 0]
    have h1 : ¬ ageDays < 1 := by linarith
    have h7 : ¬ ageDays < 7 := by linarith
    have h30 : ¬ ageDays < 30 := by linarith
    simp [hcat, h1, h7, h30]

/-- C9 witness: an entry with no keyword match, category outside the
    candidate set, and age 40 days scores 0. -/
theorem claim9_witness :
    0 ≤ relevanceScore sampleEntry [str "zzz"] [.task] 40 ∧
    relevanceScore sampleEntry [str "zzz"] [.task] 40 = 0 :=
  ⟨(claim9_score_nonneg_zero sampleEntry [str "zzz"] [.task] 40).1,
   (claim9_score_nonneg_zero sampleEntry [str "zzz"] [.task] 40).2
     (by decide) (by decide) (by norm_num)⟩

/-- The single-entry retry loop obeys the retry-policy contract. -/
theorem autoTagEntryFlow_retrySpec (input : Str) (oracle : ℕ → OracleResponse)
    (rand : ℕ → ℚ) (hr : ∀ k, 0 ≤ rand k ∧ rand k < 1) :
    singleRetrySpec oracle (autoTagEntryFlow input oracle rand) := by
  unfold singleRetrySpec
  cases h0 : oracle 0 with
  | success out =>
    have hrun : autoTagEntryFlow input oracle rand =
        ⟨validateAndEnhanceOutput (out.getD (getFallbackResult input)) input, 1, []⟩ := by
      simp [autoTagEntryFlow, autoTagGo, h0]
    rw [hrun]
    refine ⟨by norm_num, by simp [followedByRetry, h0], rfl, ?_⟩
    intro k hk
    exact absurd hk (by simp)
  | failure e0 =>
    by_cases hc0 : isRetryableSingle e0 = true
    · cases h1 : oracle 1 with
      | success out1 =>
        have hrun : autoTagEntryFlow input oracle rand =
            ⟨validateAndEnhanceOutput (out1.getD (getFallbackResult input)) input, 2,
             [min ((1000:ℚ) * 2 ^ 0) 10000 + rand 0 * 500]⟩ := by
          simp [autoTagEntryFlow, autoTagGo, h0, h1, hc0]
        rw [hrun]
        refine ⟨by norm_num, by simp [followedByRetry, h0, h1, hc0], rfl, ?_⟩
        intro k hk
        match k, hk with
        | 0, _ =>
          exact ⟨rand 0 * 500, (jitter_bounds _ (hr 0).1 (hr 0).2).1,
            (jitter_bounds _ (hr 0).1 (hr 0).2).2, rfl⟩
      | failure e1 =>
        by_cases hc1 : isRetryableSingle e1 = true
        · have hrun : autoTagEntryFlow input oracle rand =
              ⟨(autoTagGo input oracle rand 2 1).result, 3,
               [min ((1000:ℚ) * 2 ^ 0) 10000 + rand 0 * 500,
                min ((1000:ℚ) * 2 ^ 1) 10000 + rand 1 * 500]⟩ := by
            cases h2 : oracle 2 with
            | success out2 => simp [autoTagEntryFlow, autoTagGo, h0, h1, h2, hc0, hc1]
            | failure e2 => simp [autoTagEntryFlow, autoTagGo, h0, h1, h2, hc0, hc1]
          rw [hrun]
          refine ⟨by norm_num, by simp [followedByRetry, h0, h1, hc0, hc1], rfl, ?_⟩
          intro k hk
          match k, hk with
          | 0, _ =>
            exact ⟨rand 0 * 500, (jitter_bounds _ (hr 0).1 (hr 0).2).1,
              (jitter_bounds _ (hr 0).1 (hr 0).2).2, rfl⟩
          | 1, _ =>
            exact ⟨rand 1 * 500, (jitter_bounds _ (hr 1).1 (hr 1).2).1,
              (jitter_bounds _ (hr 1).1 (hr 1).2).2, rfl⟩
        · have hrun : autoTagEntryFlow input oracle rand =
              ⟨getFallbackResult input, 2,
               [min ((1000:ℚ) * 2 ^ 0) 10000 + rand 0 * 500]⟩ := by
            simp [autoTagEntryFlow, autoTagGo, h0, h1, hc0, hc1]
          rw [hrun]
          refine ⟨by norm_num, by simp [followedByRetry, h0, h1, hc0, hc1], rfl, ?_⟩
          intro k hk
          match k, hk with
          | 0, _ =>
            exact ⟨rand 0 * 500, (jitter_bounds _ (hr 0).1 (hr 0).2).1,
              (jitter_bounds _ (hr 0).1 (hr 0).2).2, rfl⟩
    · have hrun : autoTagEntryFlow input oracle rand =
          ⟨getFallbackResult input, 1, []⟩ := by
        simp [autoTagEntryFlow, autoTagGo, h0, hc0]
      rw [hrun]
      refine ⟨by norm_num, by simp [followedByRetry, h0, hc0], rfl, ?_⟩
      intro k hk
      exact absurd hk (by simp)

/-- The bulk retry loop obeys the retry-policy contract (with its own
    retryability test). -/
theorem bulkAutoTagFlow_retrySpec (oracle : ℕ → BulkOracleResponse)
    (rand : ℕ → ℚ) (hr : ∀ k, 0 ≤ rand k ∧ rand k < 1) :
    bulkRetrySpec oracle (bulkAutoTagFlow oracle rand) := by
  unfold bulkRetrySpec
  cases h0 : oracle 0 with
  | success out =>
    have hrun : bulkAutoTagFlow oracle rand =
        ⟨(match out with | some o => some o | none => none), 1, []⟩ := by
      cases out <;> simp [bulkAutoTagFlow, bulkAutoTagGo, h0]
    rw [hrun]
    refine ⟨by norm_num, by simp [bulkFollowedByRetry, h0], rfl, ?_⟩
    intro k hk
    exact absurd hk (by simp)
  | failure e0 =>
    by_cases hc0 : isRetryableBulk e0 = true
    · cases h1 : oracle 1 with
      | success out1 =>
        have hrun : bulkAutoTagFlow oracle rand =
            ⟨(match out1 with | some o => some o | none => none), 2,
             [min ((1000:ℚ) * 2 ^ 0) 10000 + rand 0 * 500]⟩ := by
          cases out1 <;> simp [bulkAutoTagFlow, bulkAutoTagGo, h0, h1, hc0]
        rw [hrun]
        refine ⟨by norm_num, by simp [bulkFollowedByRetry, h0, h1, hc0], rfl, ?_⟩
        intro k hk
        match k, hk with
        | 0, _ =>
          exact ⟨rand 0 * 500, (jitter_bounds _ (hr 0).1 (hr 0).2).1,
            (jitter_bounds _ (hr 0).1 (hr 0).2).2, rfl⟩
      | failure e1 =>
        by_cases hc1 : isRetryableBulk e1 = true
        · have hrun : bulkAutoTagFlow oracle rand =
              ⟨(bulkAutoTagGo oracle rand 2 1).outcome, 3,
               [min ((1000:ℚ) * 2 ^ 0) 10000 + rand 0 * 500,
                min ((1000:ℚ) * 2 ^ 1) 10000 + rand 1 * 500]⟩ := by
            cases h2 : oracle 2 with
            | success out2 =>
              cases out2 <;> simp [bulkAutoTagFlow, bulkAutoTagGo, h0, h1, h2, hc0, hc1]
            | failure e2 => simp [bulkAutoTagFlow, bulkAutoTagGo, h0, h1, h2, hc0, hc1]
          rw [hrun]
          refine ⟨by norm_num, by simp [bulkFollowedByRetry, h0, h1, hc0, hc1], rfl, ?_⟩
          intro k hk
          match k, hk with
          | 0, _ =>
            exact ⟨rand 0 * 500, (jitter_bounds _ (hr 0).1 (hr 0).2).1,
              (jitter_bounds _ (hr 0).1 (hr 0).2).2, rfl⟩
          | 1, _ =>
            exact ⟨rand 1 * 500, (jitter_bounds _ (hr 1).1 (hr 1).2).1,
              (jitter_bounds _ (hr 1).1 (hr 1).2).2, rfl⟩
        · have hrun : bulkAutoTagFlow oracle rand =
              ⟨none, 2, [min ((1000:ℚ) * 2 ^ 0) 10000 + rand 0 * 500]⟩ := by
            simp [bulkAutoTagFlow, bulkAutoTagGo, h0, h1, hc0, hc1]
          rw [hrun]
          refine ⟨by norm_num, by simp [bulkFollowedByRetry, h0, h1, hc0, hc1], rfl, ?_⟩
          intro k hk
          match k, hk with
          | 0, _ =>
            exact ⟨rand 0 * 500, (jitter_bounds _ (hr 0).1 (hr 0).2).1,
              (jitter_bounds _ (hr 0).1 (hr 0).2).2, rfl⟩
    · have hrun : bulkAutoTagFlow oracle rand = ⟨none, 1, []⟩ := by
        simp [bulkAutoTagFlow, bulkAutoTagGo, h0, hc0]
      rw [hrun]
      refine ⟨by norm_num, by simp [bulkFollowedByRetry, h0, hc0], rfl, ?_⟩
      intro k hk
      exact absurd hk (by simp)

/-- C2 counterexample: the claim's shared transient class (overload,
    quota/resource exhaustion, timeout/deadline-exceeded) does not match
    the code.  An error whose message is the standard deadline signal
    "DEADLINE_EXCEEDED" is transient per the claim, yet the bulk flow makes
    no further attempt after it even with attempts remaining; likewise a
    "resource exhausted" message is transient per the claim, yet the
    single-entry flow makes no further attempt (its test only matches the
    uppercase RESOURCE_EXHAUSTED spelling). -/
theorem claim2_counterexample :
    specTransientError ⟨none, str "DEADLINE_EXCEEDED"⟩ = true ∧
    (bulkAutoTagFlow (fun _ => .failure ⟨none, str "DEADLINE_EXCEEDED"⟩)
        (fun _ => 0)).attempts = 1 ∧
    specTransientError ⟨none, str "resource exhausted"⟩ = true ∧
    (autoTagEntryFlow (str "x")
        (fun _ => .failure ⟨none, str "resource exhausted"⟩)
        (fun _ => 0)).attempts = 1 := by
  refine ⟨by decide, by decide, by decide, by decide⟩

/-- C2 (amended): both retry loops make at most 3 attempts; a failed
    attempt is followed by another attempt iff attempts remain and the
    error passes the flow's own retryability test — for the single-entry
    flow: status 503 or a message containing "503", "overloaded", "quota",
    "RESOURCE_EXHAUSTED", "timeout" or "DEADLINE_EXCEEDED"; for the bulk
    flow: status 503 or a message containing "503", "overloaded", "quota",
    "resource exhausted" or "timeout" — and the delay before retry k
    (k = 1, 2) is min(1000 * 2^(k-1), 10000) ms plus a uniform random
    jitter in [0, 500) ms. -/
theorem claim2_retry_policy (input : Str) (oracle : ℕ → OracleResponse)
    (boracle : ℕ → BulkOracleResponse) (rand brand : ℕ → ℚ)
    (hr : ∀ k, 0 ≤ rand k ∧ rand k < 1)
    (hbr : ∀ k, 0 ≤ brand k ∧ brand k < 1) :
    singleRetrySpec oracle (autoTagEntryFlow input oracle rand) ∧
    bulkRetrySpec boracle (bulkAutoTagFlow boracle brand) :=
  ⟨autoTagEntryFlow_retrySpec input oracle rand hr,
   bulkAutoTagFlow_retrySpec boracle brand hbr⟩

/-- C2 witness: concrete oracles that fail with an overloaded 503 on every
    attempt, and the zero-jitter randomness source. -/
theorem claim2_witness :
    (∀ _k : ℕ, 0 ≤ (0:ℚ) ∧ (0:ℚ) < 1) ∧
    (singleRetrySpec (fun _ => .failure ⟨some 503, str "overloaded"⟩)
       (autoTagEntryFlow (str "x")
         (fun _ => .failure ⟨some 503, str "overloaded"⟩) (fun _ => 0)) ∧
     bulkRetrySpec (fun _ => .failure ⟨some 503, str "overloaded"⟩)
       (bulkAutoTagFlow (fun _ => .failure ⟨some 503, str "overloaded"⟩)
         (fun _ => 0))) :=
  ⟨fun _ => ⟨le_refl 0, by norm_num⟩,
   claim2_retry_policy (str "x")
     (fun _ => .failure ⟨some 503, str "overloaded"⟩)
     (fun _ => .failure ⟨some 503, str "overloaded"⟩)
     (fun _ => 0) (fun _ => 0)
     (fun _ => ⟨le_refl 0, by norm_num⟩)
     (fun _ => ⟨le_refl 0, by norm_num⟩)⟩

/-- C8 counterexample: with the blob "a\nb", a two-item oracle result, and
    a store whose first create call fails while every later one succeeds,
    `bulkAddEntries` returns the count 2 (the fallback line count) while
    three records were actually persisted (the second oracle record plus
    the two fallback records): the returned count is not the number of
    records persisted, and the partial main-path failure is not surfaced
    as a partial count. -/
theorem claim8_counterexample :
    (bulkAddEntries (str "a\nb") (.ok [sampleOutput, sampleOutput])
        (fun i => decide (0 < i))).1 = some 2 ∧
    ((bulkAddEntries (str "a\nb") (.ok [sampleOutput, sampleOutput])
        (fun i => decide (0 < i))).2).length = 3 := by
  refine ⟨by decide, by decide⟩

/-- C8 (amended): when every persistence call succeeds, the returned count
    equals the number of records actually persisted.  When some main-path
    persistence calls fail, there is no partial count and no rollback:
    every record whose own create call succeeded stays persisted, and the
    operation falls back to the line-split records (or, if a fallback
    persist also fails, throws), so the total persisted can exceed the
    returned count. -/
theorem claim8_bulk_count (raw : Str) (bulk : BulkOutcome) (ok : ℕ → Bool) :
    ((∀ i, ok i = true) →
      (bulkAddEntries raw bulk ok).1 =
        some ((bulkAddEntries raw bulk ok).2.length)) ∧
    (∀ results r, r ∈ (runSaves (results.map resultToEntry) ok 0).1 →
      trimStr raw ≠ [] → results.length ≠ 0 →
      ¬(results.length = 1 ∧ 200 < raw.length) →
      r ∈ (bulkAddEntries raw (.ok results) ok).2) := by
  constructor
  · intro hok
    unfold bulkAddEntries bulkFallbackRun
    by_cases htrim : trimStr raw = []
    · simp [htrim]
    · cases bulk with
      | err => simp [htrim, runSaves_allOk _ _ hok]
      | ok results =>
        by_cases hlen : results.length = 0
        · simp [htrim, hlen]
        · by_cases hpl : results.length = 1 ∧ 200 < raw.length
          · simp [htrim, hlen, hpl, runSaves_allOk _ _ hok]
          · simp [htrim, hlen, hpl, runSaves_allOk _ _ hok]
  · intro results r hr htrim hlen hpl
    unfold bulkAddEntries bulkFallbackRun
    rw [if_neg htrim]
    dsimp only
    rw [if_neg hlen, if_neg hpl]
    by_cases hs : (runSaves (results.map resultToEntry) ok 0).2 = true
    · simp [hs, hr]
    · simp only [hs, if_false, Bool.false_eq_true]
      exact List.mem_append_left _ hr

/-- C8 witness: the blob "a\nb", a two-item oracle result, and a store
    where every create call succeeds; the count is the persisted count and
    the first record's persistence survives in the result. -/
theorem claim8_witness :
    (bulkAddEntries (str "a\nb") (.ok [sampleOutput, sampleOutput])
        (fun _ => true)).1 =
      some ((bulkAddEntries (str "a\nb") (.ok [sampleOutput, sampleOutput])
        (fun _ => true)).2.length) ∧
    resultToEntry sampleOutput ∈
      (bulkAddEntries (str "a\nb") (.ok [sampleOutput, sampleOutput])
        (fun _ => true)).2 :=
  ⟨(claim8_bulk_count (str "a\nb") (.ok [sampleOutput, sampleOutput])
      (fun _ => true)).1 (fun _ => rfl),
   (claim8_bulk_count (str "a\nb") (.ok [sampleOutput, sampleOutput])
      (fun _ => true)).2 [sampleOutput, sampleOutput]
     (resultToEntry sampleOutput) (by decide) (by decide) (by decide) (by decide)⟩
